import Mathlib

/-!
Verification of the CCNet bill-validator protocol engine (`src/Device.ts`).

The engine is shallowly embedded as a state machine: bytes are `List Nat`,
buffers compared the way the source compares them, and the event-driven
parts of `Device.onTick` (dispatch, the inbound-frame handler, the
timeout accumulator) become explicit transition functions on a
`DeviceState` record.  Completion-sink invocations are recorded in a
trace `(task id, result)` so that exactly-once and FIFO properties can
be stated.
-/

/-- Protocol error value, as constructed by `new Exception(code, message)`
in `Device.ts` (the `Exception` class itself is a plain code/message
carrier). -/
structure CCError where
  code : Nat
  message : String
deriving DecidableEq, Repr

/-- One completion-sink invocation: `task.done(error, null)` or
`task.done(null, data)`. -/
inductive TaskResult where
  | err (e : CCError)
  | ok (payload : List Nat)
deriving DecidableEq, Repr

/-- A queued unit of work (`Task.ts`): outbound framed bytes and a timeout
budget.  The completion sink is identified by `id` (ids are assigned in
enqueue order); its invocations are recorded in the engine trace. -/
structure DTask where
  id : Nat
  data : List Nat
  timeout : Nat
deriving DecidableEq, Repr

/-- A bound `parser.once('data', handler)` listener, tied to the task it
was created for in `Device.onTick`. -/
structure PHandler where
  taskId : Nat
deriving DecidableEq, Repr

/-- A bound `this.on('tick', timeoutHandler)` listener with its closure
state `timeoutCounter` and the captured task timeout. -/
structure THandler where
  taskId : Nat
  counter : Nat
  timeout : Nat
deriving DecidableEq, Repr

/-- The engine state of `Device`: busy gate, FIFO queue, bound listeners,
and observable histories (sink invocations and serial writes). -/
structure DeviceState where
  busy : Bool
  queue : List DTask
  nextId : Nat
  phandlers : List PHandler
  thandlers : List THandler
  trace : List (Nat × TaskResult)
  dispatches : List DTask
  writes : List (List Nat)
  serialOpen : Bool
  timerOn : Bool
deriving DecidableEq, Repr

/-- `Device.timerMs`: the fixed tick interval (100 ms). -/
def timerMs : Nat := 100

/-- One shift step of the CRC register: shift right, xor the polynomial
when the low bit was set. -/
def crcShift (c : Nat) : Nat :=
  if c % 2 = 1 then Nat.xor (c / 2) 0x8408 else c / 2

/-- Process one input byte into the CRC register (xor in, 8 shift steps). -/
def crcByte (c b : Nat) : Nat :=
  crcShift (crcShift (crcShift (crcShift (crcShift (crcShift (crcShift (crcShift (Nat.xor c b))))))))

/-- Modelled from the spec: `getCRC16` of `Utils.ts` is not under `src/`.
Per section 4.1 it is a 16-bit CRC with a fixed polynomial (the CCNet
polynomial `0x8408`), processed least-significant-bit first, zero initial
register, no final inversion, serialized as 2 bytes little-endian. -/
def getCRC16 (bs : List Nat) : List Nat :=
  let c := bs.foldl crcByte 0
  [c % 256, c / 256 % 256]

/-- Whether a byte is a UTF-8 continuation byte `0x80..0xBF`. -/
def utf8Cont (b : Nat) : Bool := 0x80 ≤ b && b ≤ 0xBF

/-- Fuelled WHATWG UTF-8 decoder: code points, with `0xFFFD` replacement
for invalid input (one replacement per maximal invalid subpart).  This is
the decoding Node's `Buffer.prototype.toString()` performs with its
default `utf8` encoding. -/
def utf8Go : Nat → List Nat → List Nat
  | 0, _ => []
  | _, [] => []
  | fuel + 1, b :: rest =>
    if b ≤ 0x7F then b :: utf8Go fuel rest
    else if b ≤ 0xC1 then 0xFFFD :: utf8Go fuel rest
    else if b ≤ 0xDF then
      match rest with
      | [] => [0xFFFD]
      | b2 :: rest2 =>
        if utf8Cont b2 then ((b - 0xC0) * 64 + (b2 - 0x80)) :: utf8Go fuel rest2
        else 0xFFFD :: utf8Go fuel rest
    else if b ≤ 0xEF then
      let lo := if b = 0xE0 then 0xA0 else 0x80
      let hi := if b = 0xED then 0x9F else 0xBF
      match rest with
      | [] => [0xFFFD]
      | b2 :: rest2 =>
        if lo ≤ b2 && b2 ≤ hi then
          match rest2 with
          | [] => [0xFFFD]
          | b3 :: rest3 =>
            if utf8Cont b3 then
              ((b - 0xE0) * 4096 + (b2 - 0x80) * 64 + (b3 - 0x80)) :: utf8Go fuel rest3
            else 0xFFFD :: utf8Go fuel (b3 :: rest3)
        else 0xFFFD :: utf8Go fuel rest
    else if b ≤ 0xF4 then
      let lo := if b = 0xF0 then 0x90 else 0x80
      let hi := if b = 0xF4 then 0x8F else 0xBF
      match rest with
      | [] => [0xFFFD]
      | b2 :: rest2 =>
        if lo ≤ b2 && b2 ≤ hi then
          match rest2 with
          | [] => [0xFFFD]
          | b3 :: rest3 =>
            if utf8Cont b3 then
              match rest3 with
              | [] => [0xFFFD]
              | b4 :: rest4 =>
                if utf8Cont b4 then
                  ((b - 0xF0) * 262144 + (b2 - 0x80) * 4096 + (b3 - 0x80) * 64 + (b4 - 0x80))
                    :: utf8Go fuel rest4
                else 0xFFFD :: utf8Go fuel (b4 :: rest4)
            else 0xFFFD :: utf8Go fuel (b3 :: rest3)
        else 0xFFFD :: utf8Go fuel rest
    else 0xFFFD :: utf8Go fuel rest

/-- `Buffer.toString()` of a byte buffer, as a list of code points. -/
def bufferToString (bs : List Nat) : List Nat := utf8Go bs.length bs

/-- The inbound CRC check of `Device.onTick`'s frame handler
(`Device.ts` lines 432-438): split off the trailing 2 bytes and compare
`check.toString() !== getCRC16(slice).toString()`; `true` means the frame
is accepted. -/
def verifyFrame (response : List Nat) : Bool :=
  let ln := response.length
  let check := response.drop (ln - 2)
  let slice := response.take (ln - 2)
  bufferToString check == bufferToString (getCRC16 slice)

/-- Modelled from the spec: the sync byte constant of `Const/CCNet.ts`
(not under `src/`); the spec fixes it as a constant, value `0x02`. -/
def SYNC : Nat := 0x02

/-- Modelled from the spec: the peripheral address constant of
`Const/CCNet.ts` (not under `src/`), value `0x03`. -/
def ADR : Nat := 0x03

/-- Modelled from the spec: uniform framing applied by the command layer
(`Command.ts` / `Commands.ts` are not under `src/`): sync, address,
total length (3 header + payload + 2 checksum), payload, 2-byte checksum. -/
def mkFrame (payload : List Nat) : List Nat :=
  let head := [SYNC, ADR, 3 + payload.length + 2] ++ payload
  head ++ getCRC16 head

/-- Modelled from the spec: `(new Commands.Ack()).request()`, the framed
single-byte `0x00` ACK marker. -/
def ackFrame : List Nat := mkFrame [0x00]

/-- Modelled from the spec: `(new Commands.Nak()).request()`, the framed
single-byte `0xFF` NAK marker. -/
def nakFrame : List Nat := mkFrame [0xFF]

/-- Modelled from the spec: `(new Commands.Poll()).request()`, the framed
Poll command (CCNet poll code `0x33`). -/
def pollFrame : List Nat := mkFrame [0x33]

/-- `new Exception(10, 'Request timeout.')` from the timeout handler. -/
def requestTimeoutError : CCError := ⟨10, "Request timeout."⟩

/-- `new Exception(11, 'Wrong response data hash.')` from the CRC-failure
path of the frame handler. -/
def responseHashError : CCError := ⟨11, "Wrong response data hash."⟩

/-- `new Exception(11, 'Wrong request data hash.')` from the inbound-NAK
path of the frame handler. -/
def requestHashError : CCError := ⟨11, "Wrong request data hash."⟩

/-- The frame handler of `Device.onTick` (`Device.ts` lines 421-473),
run for the task `hid` it was bound for: unbind the timeout listener and
itself, check the CRC (NAK + fail on mismatch, with no early return),
then branch on the payload (ACK marker: nothing; NAK marker: fail; else
send ACK) and finally - again with no early return - clear `busy` and
complete the task with the payload. -/
def runHandler (frame : List Nat) (s : DeviceState) (hid : Nat) : DeviceState :=
  let s1 := { s with
    thandlers := s.thandlers.filter (fun h => h.taskId != hid),
    phandlers := s.phandlers.filter (fun h => h.taskId != hid) }
  let ln := frame.length
  let s2 := if verifyFrame frame then s1 else
    { s1 with
      writes := s1.writes ++ [nakFrame],
      busy := false,
      trace := s1.trace ++ [(hid, .err responseHashError)] }
  let data := (frame.take (ln - 2)).drop 3
  let s3 := if data == [0x00] then s2
    else if data == [0xFF] then
      { s2 with busy := false, trace := s2.trace ++ [(hid, .err requestHashError)] }
    else { s2 with writes := s2.writes ++ [ackFrame] }
  { s3 with busy := false, trace := s3.trace ++ [(hid, .ok data)] }

/-- One firing of a bound `timeoutHandler` (`Device.ts` lines 408-418):
add `timerMs` to its counter; when the budget is reached, clear `busy`,
unregister the tick listener (only), and fail the task. -/
def fireTH (s : DeviceState) (hid : Nat) : DeviceState :=
  match s.thandlers.find? (fun h => h.taskId == hid) with
  | none => s
  | some h =>
    if h.timeout ≤ h.counter + timerMs then
      { s with
        busy := false,
        thandlers := s.thandlers.filter (fun x => x.taskId != hid),
        trace := s.trace ++ [(hid, .err requestTimeoutError)] }
    else
      { s with thandlers := s.thandlers.map (fun x =>
          if x.taskId == hid then { x with counter := x.counter + timerMs } else x) }

/-- The dispatch part of `Device.onTick` (`Device.ts` lines 395-501): do
nothing when busy; otherwise dequeue the next task and dispatch it (bind
the frame handler, write the framed bytes, bind the timeout handler when
the budget is nonzero), or, with an empty queue, push a fresh Poll task
with a 1000 ms budget. -/
def onTickBody (s : DeviceState) : DeviceState :=
  if s.busy then s
  else
    match s.queue with
    | [] =>
      { s with
        queue := [⟨s.nextId, pollFrame, 1000⟩],
        nextId := s.nextId + 1 }
    | t :: rest =>
      { s with
        busy := true,
        queue := rest,
        phandlers := s.phandlers ++ [⟨t.id⟩],
        writes := s.writes ++ [t.data],
        thandlers := if t.timeout ≠ 0 then s.thandlers ++ [⟨t.id, 0, t.timeout⟩] else s.thandlers,
        dispatches := s.dispatches ++ [t] }

/-- Run every timeout handler of the tick-event snapshot, in registration
order. -/
def processTH (snap : List THandler) (s : DeviceState) : DeviceState :=
  snap.foldl (fun acc h => fireTH acc h.taskId) s

/-- External events driving the engine: an `execute()` enqueue, a tick of
the operating timer, a complete inbound frame from the parser, and a
`disconnect()`. -/
inductive Ev where
  | exec (data : List Nat) (timeout : Nat)
  | tick
  | frame (bytes : List Nat)
  | disconnect
deriving DecidableEq, Repr

/-- One engine transition.  `execute` appends to the queue
(`Device.ts` lines 512-524); a tick (only while the operating timer runs)
performs the dispatch body and then the timeout handlers bound at the
start of the tick; an inbound frame (only while the port is open) runs
every bound `once` frame handler, in registration order; `disconnect`
closes the port, which stops the operating timer
(`Device.ts` lines 265-271, 380-383). -/
def step (s : DeviceState) : Ev → DeviceState
  | .exec d t =>
    { s with queue := s.queue ++ [⟨s.nextId, d, t⟩], nextId := s.nextId + 1 }
  | .tick =>
    if s.timerOn then processTH s.thandlers (onTickBody s) else s
  | .frame f =>
    if s.serialOpen then s.phandlers.foldl (fun acc h => runHandler f acc h.taskId) s else s
  | .disconnect => { s with serialOpen := false, timerOn := false }

/-- The engine state right after a successful `connect()`: idle, empty
queue, port open, operating timer running. -/
def initState : DeviceState := ⟨false, [], 0, [], [], [], [], [], true, true⟩

/-- Run the engine from `initState` over a list of events. -/
def run (evs : List Ev) : DeviceState := evs.foldl step initState

/-- Task ids in order of their first completion-sink invocation. -/
def firsts : List (Nat × TaskResult) → List Nat
  | [] => []
  | (i, _) :: rest => i :: (firsts rest).filter (fun j => j != i)

/-- The `DeviceStatus` table of `Device.ts` (lines 22-73): the closed set
of semantic states. -/
inductive DeviceStatus where
  | POWER_UP
  | POWER_UP_WITH_BILL_IN_VALIDATOR
  | POWER_UP_WITH_BILL_IN_STACKER
  | INITIALIZE
  | IDLING
  | ACCEPTING
  | STACKING
  | RETURNING
  | UNIT_DISABLED
  | HOLDING
  | DEVICE_BUSY
  | REJECTING_DUE_TO_INSERTION
  | REJECTING_DUE_TO_MAGNETIC
  | REJECTING_DUE_TO_REMAINED_BILL_IN_HEAD
  | REJECTING_DUE_TO_MULTIPLYING
  | REJECTING_DUE_TO_CONVEYING
  | REJECTING_DUE_TO_IDENTIFICATION
  | REJECTING_DUE_TO_VERIFICATION
  | REJECTING_DUE_TO_OPTIC
  | REJECTING_DUE_TO_INHIBIT
  | REJECTING_DUE_TO_CAPACITY
  | REJECTING_DUE_TO_OPERATION
  | REJECTING_DUE_TO_LENGTH
  | REJECTING_DUE_TO_UNRECOGNISED_BARCODE
  | REJECTING_DUE_TO_UV
  | REJECTING_DUE_TO_INCORRECT_NUMBER_OF_CHARACTERS_IN_BARCODE
  | REJECTING_DUE_TO_UNKNOWN_BARCODE_START_SEQUENCE
  | REJECTING_DUE_TO_UNKNOWN_BARCODE_STOP_SEQUENCE
  | DROP_CASSETTE_FULL
  | DROP_CASSETTE_OUT_OF_POSITION
  | VALIDATOR_JAMMED
  | DROP_CASSETTE_JAMMED
  | CHEATED
  | PAUSE
  | STACK_MOTOR_FAILURE
  | TRANSPORT_MOTOR_SPEED_FAILURE
  | TRANSPORT_MOTOR_FAILURE
  | ALIGNING_MOTOR_FAILURE
  | INITIAL_CASSETTE_STATUS_FAILURE
  | OPTIC_CANAL_FAILURE
  | MAGNETIC_CANAL_FAILURE
  | CAPACITANCE_CANAL_FAILURE
  | ESCROW_POSITION
  | BILL_STACKED
  | BILL_RETURNED
deriving DecidableEq, Repr

/-- The hex status-code string each `DeviceStatus` enum member is declared
with in `Device.ts`. -/
def DeviceStatus.codeOf : DeviceStatus → String
  | .POWER_UP => "10"
  | .POWER_UP_WITH_BILL_IN_VALIDATOR => "11"
  | .POWER_UP_WITH_BILL_IN_STACKER => "12"
  | .INITIALIZE => "13"
  | .IDLING => "14"
  | .ACCEPTING => "15"
  | .STACKING => "17"
  | .RETURNING => "18"
  | .UNIT_DISABLED => "19"
  | .HOLDING => "1a"
  | .DEVICE_BUSY => "1b"
  | .REJECTING_DUE_TO_INSERTION => "1c60"
  | .REJECTING_DUE_TO_MAGNETIC => "1c61"
  | .REJECTING_DUE_TO_REMAINED_BILL_IN_HEAD => "1c62"
  | .REJECTING_DUE_TO_MULTIPLYING => "1c63"
  | .REJECTING_DUE_TO_CONVEYING => "1c64"
  | .REJECTING_DUE_TO_IDENTIFICATION => "1c65"
  | .REJECTING_DUE_TO_VERIFICATION => "1c66"
  | .REJECTING_DUE_TO_OPTIC => "1c67"
  | .REJECTING_DUE_TO_INHIBIT => "1c68"
  | .REJECTING_DUE_TO_CAPACITY => "1c69"
  | .REJECTING_DUE_TO_OPERATION => "1c6a"
  | .REJECTING_DUE_TO_LENGTH => "1c6c"
  | .REJECTING_DUE_TO_UNRECOGNISED_BARCODE => "1c92"
  | .REJECTING_DUE_TO_UV => "1c6d"
  | .REJECTING_DUE_TO_INCORRECT_NUMBER_OF_CHARACTERS_IN_BARCODE => "1c93"
  | .REJECTING_DUE_TO_UNKNOWN_BARCODE_START_SEQUENCE => "1c94"
  | .REJECTING_DUE_TO_UNKNOWN_BARCODE_STOP_SEQUENCE => "1c95"
  | .DROP_CASSETTE_FULL => "41"
  | .DROP_CASSETTE_OUT_OF_POSITION => "42"
  | .VALIDATOR_JAMMED => "43"
  | .DROP_CASSETTE_JAMMED => "44"
  | .CHEATED => "45"
  | .PAUSE => "46"
  | .STACK_MOTOR_FAILURE => "4750"
  | .TRANSPORT_MOTOR_SPEED_FAILURE => "4751"
  | .TRANSPORT_MOTOR_FAILURE => "4752"
  | .ALIGNING_MOTOR_FAILURE => "4753"
  | .INITIAL_CASSETTE_STATUS_FAILURE => "4754"
  | .OPTIC_CANAL_FAILURE => "4755"
  | .MAGNETIC_CANAL_FAILURE => "4756"
  | .CAPACITANCE_CANAL_FAILURE => "475f"
  | .ESCROW_POSITION => "80"
  | .BILL_STACKED => "81"
  | .BILL_RETURNED => "82"

/-- All members of the `DeviceStatus` table, in declaration order. -/
def deviceStatusList : List DeviceStatus :=
  [.POWER_UP, .POWER_UP_WITH_BILL_IN_VALIDATOR, .POWER_UP_WITH_BILL_IN_STACKER,
   .INITIALIZE, .IDLING, .ACCEPTING, .STACKING, .RETURNING, .UNIT_DISABLED,
   .HOLDING, .DEVICE_BUSY,
   .REJECTING_DUE_TO_INSERTION, .REJECTING_DUE_TO_MAGNETIC,
   .REJECTING_DUE_TO_REMAINED_BILL_IN_HEAD, .REJECTING_DUE_TO_MULTIPLYING,
   .REJECTING_DUE_TO_CONVEYING, .REJECTING_DUE_TO_IDENTIFICATION,
   .REJECTING_DUE_TO_VERIFICATION, .REJECTING_DUE_TO_OPTIC,
   .REJECTING_DUE_TO_INHIBIT, .REJECTING_DUE_TO_CAPACITY,
   .REJECTING_DUE_TO_OPERATION, .REJECTING_DUE_TO_LENGTH,
   .REJECTING_DUE_TO_UNRECOGNISED_BARCODE, .REJECTING_DUE_TO_UV,
   .REJECTING_DUE_TO_INCORRECT_NUMBER_OF_CHARACTERS_IN_BARCODE,
   .REJECTING_DUE_TO_UNKNOWN_BARCODE_START_SEQUENCE,
   .REJECTING_DUE_TO_UNKNOWN_BARCODE_STOP_SEQUENCE,
   .DROP_CASSETTE_FULL, .DROP_CASSETTE_OUT_OF_POSITION, .VALIDATOR_JAMMED,
   .DROP_CASSETTE_JAMMED, .CHEATED, .PAUSE,
   .STACK_MOTOR_FAILURE, .TRANSPORT_MOTOR_SPEED_FAILURE,
   .TRANSPORT_MOTOR_FAILURE, .ALIGNING_MOTOR_FAILURE,
   .INITIAL_CASSETTE_STATUS_FAILURE, .OPTIC_CANAL_FAILURE,
   .MAGNETIC_CANAL_FAILURE, .CAPACITANCE_CANAL_FAILURE,
   .ESCROW_POSITION, .BILL_STACKED, .BILL_RETURNED]

/-- Lookup of a status-code string in the `DeviceStatus` table. -/
def lookupStatus (c : String) : Option DeviceStatus :=
  deviceStatusList.find? (fun st => st.codeOf == c)

/-- `Device.onStatus` (`Device.ts` line 390): an empty method body - it
produces no classification, emits no notification and raises no error for
any incoming status buffer. -/
def onStatus (_status : List Nat) : Option CCError := none

/-- The completion sink of the synthesized Poll task
(`Device.ts` lines 492-498): on error it throws (modelled as
`Except.error`, short-circuiting before `onStatus`); on success it
forwards the payload to `onStatus`. -/
def pollSink (error : Option CCError) (data : List Nat) : Except CCError (Option CCError) :=
  match error with
  | some e => Except.error e
  | none => Except.ok (onStatus data)

/-! ### Bookkeeping lemmas about first completions -/

theorem mem_firsts : ∀ {tr : List (Nat × TaskResult)} {i : Nat},
    i ∈ firsts tr ↔ i ∈ tr.map Prod.fst := by
  intro tr
  induction tr with
  | nil => intro i; simp [firsts]
  | cons x rest ih =>
    intro i
    obtain ⟨j, r⟩ := x
    by_cases hij : i = j
    · subst hij; simp [firsts]
    · simp [firsts, List.mem_filter, hij, ih, bne_iff_ne]

theorem firsts_const {hid : Nat} :
    ∀ {l : List (Nat × TaskResult)}, (∀ x ∈ l, x.1 = hid) → l ≠ [] → firsts l = [hid] := by
  intro l
  induction l with
  | nil => intro _ h; exact absurd rfl h
  | cons x rest ih =>
    intro hall _
    obtain ⟨j, r⟩ := x
    have hj : j = hid := hall (j, r) (List.mem_cons_self _ _)
    subst hj
    by_cases hr : rest = []
    · subst hr; simp [firsts]
    · have hrec := ih (fun y hy => hall y (List.mem_cons_of_mem _ hy)) hr
      simp [firsts, hrec]

theorem firsts_append_const (hid : Nat) (l : List (Nat × TaskResult))
    (hl : ∀ x ∈ l, x.1 = hid) (hne : l ≠ []) :
    ∀ tr, firsts (tr ++ l) = firsts tr ++ (if hid ∈ tr.map Prod.fst then [] else [hid]) := by
  intro tr
  induction tr with
  | nil => simp [firsts_const hl hne, firsts]
  | cons x tr ih =>
    obtain ⟨j, r⟩ := x
    have hstep : firsts ((j, r) :: (tr ++ l)) = j :: (firsts (tr ++ l)).filter (fun k => k != j) := rfl
    rw [List.cons_append, hstep, ih, List.filter_append]
    by_cases hmem : hid ∈ tr.map Prod.fst
    · simp [hmem, firsts]
    · by_cases hj : hid = j
      · subst hj; simp [hmem, firsts]
      · simp [hmem, hj, bne_iff_ne, firsts]

/-! ### Characterization of the frame handler and handler folds -/

theorem runHandler_spec (f : List Nat) (s : DeviceState) (hid : Nat) :
    (runHandler f s hid).busy = false ∧
    (runHandler f s hid).queue = s.queue ∧
    (runHandler f s hid).nextId = s.nextId ∧
    (runHandler f s hid).dispatches = s.dispatches ∧
    (runHandler f s hid).serialOpen = s.serialOpen ∧
    (runHandler f s hid).timerOn = s.timerOn ∧
    (runHandler f s hid).phandlers = s.phandlers.filter (fun h => h.taskId != hid) ∧
    (runHandler f s hid).thandlers = s.thandlers.filter (fun h => h.taskId != hid) ∧
    ∃ l, (runHandler f s hid).trace = s.trace ++ l ∧ l ≠ [] ∧ ∀ x ∈ l, x.1 = hid := by
  unfold runHandler
  dsimp only
  split_ifs <;>
    refine ⟨rfl, rfl, rfl, rfl, rfl, rfl, rfl, rfl, ?_⟩
  · exact ⟨[(hid, .ok ((f.take (f.length - 2)).drop 3))], by simp, by simp, by simp⟩
  · exact ⟨[(hid, .err responseHashError), (hid, .ok ((f.take (f.length - 2)).drop 3))],
      by simp, by simp, by simp⟩
  · exact ⟨[(hid, .err requestHashError), (hid, .ok ((f.take (f.length - 2)).drop 3))],
      by simp, by simp, by simp⟩
  · exact ⟨[(hid, .err responseHashError), (hid, .err requestHashError),
      (hid, .ok ((f.take (f.length - 2)).drop 3))], by simp, by simp, by simp⟩
  · exact ⟨[(hid, .ok ((f.take (f.length - 2)).drop 3))], by simp, by simp, by simp⟩
  · exact ⟨[(hid, .err responseHashError), (hid, .ok ((f.take (f.length - 2)).drop 3))],
      by simp, by simp, by simp⟩

theorem foldRH_fields (f : List Nat) :
    ∀ (snap : List PHandler) (s : DeviceState),
    (List.foldl (fun acc h => runHandler f acc h.taskId) s snap).queue = s.queue ∧
    (List.foldl (fun acc h => runHandler f acc h.taskId) s snap).nextId = s.nextId ∧
    (List.foldl (fun acc h => runHandler f acc h.taskId) s snap).dispatches = s.dispatches ∧
    (List.foldl (fun acc h => runHandler f acc h.taskId) s snap).serialOpen = s.serialOpen ∧
    (List.foldl (fun acc h => runHandler f acc h.taskId) s snap).timerOn = s.timerOn := by
  intro snap
  induction snap with
  | nil => intro s; exact ⟨rfl, rfl, rfl, rfl, rfl⟩
  | cons x snap ih =>
    intro s
    have h := runHandler_spec f s x.taskId
    have h2 := ih (runHandler f s x.taskId)
    simp only [List.foldl_cons]
    exact ⟨h2.1.trans h.2.1, h2.2.1.trans h.2.2.1, h2.2.2.1.trans h.2.2.2.1,
      h2.2.2.2.1.trans h.2.2.2.2.1, h2.2.2.2.2.trans h.2.2.2.2.2.1⟩

theorem foldRH_busy (f : List Nat) :
    ∀ (snap : List PHandler) (s : DeviceState), snap ≠ [] →
    (List.foldl (fun acc h => runHandler f acc h.taskId) s snap).busy = false := by
  intro snap
  induction snap with
  | nil => intro s h; exact absurd rfl h
  | cons x snap ih =>
    intro s _
    simp only [List.foldl_cons]
    by_cases hsn : snap = []
    · subst hsn
      simp only [List.foldl_nil]
      exact (runHandler_spec f s x.taskId).1
    · exact ih (runHandler f s x.taskId) hsn

theorem foldRH_ph_mem (f : List Nat) :
    ∀ (snap : List PHandler) (s : DeviceState) (h : PHandler),
    h ∈ (List.foldl (fun acc h => runHandler f acc h.taskId) s snap).phandlers →
    h ∈ s.phandlers := by
  intro snap
  induction snap with
  | nil => intro s h hm; exact hm
  | cons x snap ih =>
    intro s h hm
    simp only [List.foldl_cons] at hm
    have h1 := ih (runHandler f s x.taskId) h hm
    rw [(runHandler_spec f s x.taskId).2.2.2.2.2.2.1] at h1
    exact (List.mem_filter.mp h1).1

theorem foldRH_th_mem (f : List Nat) :
    ∀ (snap : List PHandler) (s : DeviceState) (h : THandler),
    h ∈ (List.foldl (fun acc h => runHandler f acc h.taskId) s snap).thandlers →
    h ∈ s.thandlers ∧ h.taskId ∉ snap.map PHandler.taskId := by
  intro snap
  induction snap with
  | nil => intro s h hm; exact ⟨hm, by simp⟩
  | cons x snap ih =>
    intro s h hm
    simp only [List.foldl_cons] at hm
    obtain ⟨h1, h2⟩ := ih (runHandler f s x.taskId) h hm
    rw [(runHandler_spec f s x.taskId).2.2.2.2.2.2.2.1] at h1
    obtain ⟨h3, h4⟩ := List.mem_filter.mp h1
    refine ⟨h3, ?_⟩
    simp only [List.map_cons, List.mem_cons]
    rintro (h5 | h5)
    · rw [h5] at h4; simp at h4
    · exact h2 h5

theorem foldRH_firsts (f : List Nat) (D : List Nat) (hnd : D.Nodup) :
    ∀ (snap : List PHandler) (s : DeviceState),
    s.dispatches.map DTask.id = D →
    (∀ h ∈ snap, h.taskId ∈ D) →
    (firsts s.trace = D ∨
      (firsts s.trace = D.dropLast ∧ ∃ i, D.getLast? = some i ∧ i ∈ snap.map PHandler.taskId)) →
    firsts (List.foldl (fun acc h => runHandler f acc h.taskId) s snap).trace = D := by
  intro snap
  induction snap with
  | nil =>
    intro s _ _ hcase
    rcases hcase with h | ⟨_, i, _, hi⟩
    · exact h
    · simp at hi
  | cons x snap ih =>
    intro s hD hmem hcase
    simp only [List.foldl_cons]
    have spec := runHandler_spec f s x.taskId
    obtain ⟨l, htr, hlne, hlid⟩ := spec.2.2.2.2.2.2.2.2
    have hfx : firsts (runHandler f s x.taskId).trace =
        firsts s.trace ++ (if x.taskId ∈ s.trace.map Prod.fst then [] else [x.taskId]) := by
      rw [htr]; exact firsts_append_const x.taskId l hlid hlne s.trace
    have hD1 : (runHandler f s x.taskId).dispatches.map DTask.id = D := by
      rw [spec.2.2.2.1]; exact hD
    have hmem1 : ∀ h ∈ snap, h.taskId ∈ D := fun h hh => hmem h (List.mem_cons_of_mem _ hh)
    apply ih (runHandler f s x.taskId) hD1 hmem1
    rcases hcase with hfir | ⟨hfir, i, hlast, hisnap⟩
    · left
      have hx : x.taskId ∈ s.trace.map Prod.fst :=
        mem_firsts.mp (by rw [hfir]; exact hmem x (List.mem_cons_self _ _))
      rw [hfx, hfir, if_pos hx, List.append_nil]
    · have hiLast : i ∈ D.getLast? := by rw [hlast]; rfl
      have hsplit : D.dropLast ++ [i] = D := List.dropLast_append_getLast? i hiLast
      by_cases hxi : x.taskId = i
      · left
        have hnotin : i ∉ D.dropLast := by
          intro hin
          rw [← hsplit] at hnd
          exact (List.disjoint_of_nodup_append hnd) hin (by simp)
        have hx : x.taskId ∉ s.trace.map Prod.fst := by
          intro hin
          have h1 : x.taskId ∈ firsts s.trace := mem_firsts.mpr hin
          rw [hfir, hxi] at h1
          exact hnotin h1
        rw [hfx, hfir, if_neg hx, hxi, hsplit]
      · right
        have hxD : x.taskId ∈ D := hmem x (List.mem_cons_self _ _)
        have hxdl : x.taskId ∈ D.dropLast := by
          rw [← hsplit] at hxD
          rcases List.mem_append.mp hxD with h | h
          · exact h
          · simp at h; exact absurd h hxi
        have hx : x.taskId ∈ s.trace.map Prod.fst :=
          mem_firsts.mp (by rw [hfir]; exact hxdl)
        refine ⟨by rw [hfx, hfir, if_pos hx, List.append_nil], i, hlast, ?_⟩
        simp only [List.map_cons, List.mem_cons] at hisnap
        rcases hisnap with h | h
        · exact absurd h.symm hxi
        · exact h

/-! ### The reachability invariant of the engine -/

theorem chain_lt_nodup {L : List Nat} (h : List.Chain' (· < ·) L) : L.Nodup :=
  (List.chain'_iff_pairwise.mp h).imp Nat.ne_of_lt

theorem mem_of_mem_getLast'' {L : List Nat} {x : Nat} (h : x ∈ L.getLast?) : x ∈ L := by
  obtain ⟨hne, rfl⟩ := List.mem_getLast?_eq_getLast h
  exact List.getLast_mem hne

/-- Invariant of every reachable engine state: dispatched and queued task
ids are strictly increasing and fresh; the first sink invocations recorded
so far are exactly the dispatched ids (all but the in-flight one while
`busy`); frame handlers belong to dispatched tasks and the in-flight task
always has one bound; timeout handlers exist only while `busy`, only for
the in-flight task, and there is at most one. -/
structure EngineInv (s : DeviceState) : Prop where
  chain : List.Chain' (· < ·) (s.dispatches.map DTask.id ++ s.queue.map DTask.id)
  lt_next : ∀ i ∈ s.dispatches.map DTask.id ++ s.queue.map DTask.id, i < s.nextId
  tr : firsts s.trace =
    if s.busy then (s.dispatches.map DTask.id).dropLast else s.dispatches.map DTask.id
  ph : ∀ h ∈ s.phandlers, h.taskId ∈ s.dispatches.map DTask.id
  busy_ph : s.busy = true →
    ∃ i, (s.dispatches.map DTask.id).getLast? = some i ∧ i ∈ s.phandlers.map PHandler.taskId
  th_nil : s.busy = false → s.thandlers = []
  th_last : ∀ h ∈ s.thandlers, (s.dispatches.map DTask.id).getLast? = some h.taskId
  th_len : s.thandlers.length ≤ 1

theorem inv_init : EngineInv initState := by
  refine ⟨?_, ?_, ?_, ?_, ?_, ?_, ?_, ?_⟩ <;> simp [initState, firsts]

theorem inv_exec (s : DeviceState) (d : List Nat) (t : Nat) (hInv : EngineInv s) :
    EngineInv (step s (.exec d t)) := by
  show EngineInv { s with queue := s.queue ++ [⟨s.nextId, d, t⟩], nextId := s.nextId + 1 }
  have hch : List.Chain' (· < ·)
      ((s.dispatches.map DTask.id ++ s.queue.map DTask.id) ++ [s.nextId]) := by
    refine List.Chain'.append hInv.chain (List.chain'_singleton _) ?_
    intro x hx y hy
    simp only [List.head?_cons, Option.mem_def, Option.some.injEq] at hy
    subst hy
    exact hInv.lt_next x (mem_of_mem_getLast'' hx)
  refine ⟨?_, ?_, ?_, hInv.ph, hInv.busy_ph, hInv.th_nil, hInv.th_last, hInv.th_len⟩
  · simpa [List.append_assoc] using hch
  · intro i hi
    simp only [List.map_append, List.map_cons, List.map_nil, ← List.append_assoc] at hi
    rcases List.mem_append.mp hi with h | h
    · exact Nat.lt_succ_of_lt (hInv.lt_next i h)
    · simp at h; subst h; exact Nat.lt_succ_self _
  · exact hInv.tr

theorem inv_disconnect (s : DeviceState) (hInv : EngineInv s) : EngineInv (step s .disconnect) :=
  ⟨hInv.chain, hInv.lt_next, hInv.tr, hInv.ph, hInv.busy_ph, hInv.th_nil,
   hInv.th_last, hInv.th_len⟩

theorem onTickBody_busy {s : DeviceState} (h : s.busy = true) : onTickBody s = s := by
  simp [onTickBody, h]

theorem onTickBody_idle_nil {s : DeviceState} (h : s.busy = false) (hq : s.queue = []) :
    onTickBody s = { s with queue := [⟨s.nextId, pollFrame, 1000⟩], nextId := s.nextId + 1 } := by
  simp [onTickBody, h, hq]

theorem onTickBody_idle_cons {s : DeviceState} {t : DTask} {rest : List DTask}
    (h : s.busy = false) (hq : s.queue = t :: rest) :
    onTickBody s =
      { s with
        busy := true,
        queue := rest,
        phandlers := s.phandlers ++ [⟨t.id⟩],
        writes := s.writes ++ [t.data],
        thandlers := if t.timeout ≠ 0 then s.thandlers ++ [⟨t.id, 0, t.timeout⟩] else s.thandlers,
        dispatches := s.dispatches ++ [t] } := by
  simp [onTickBody, h, hq]

theorem step_tick_eq {s : DeviceState} (h : s.timerOn = true) :
    step s .tick = processTH s.thandlers (onTickBody s) := by
  simp [step, h]

theorem inv_tick (s : DeviceState) (hInv : EngineInv s) : EngineInv (step s .tick) := by
  cases hT : s.timerOn with
  | false => simpa [step, hT] using hInv
  | true =>
    rw [step_tick_eq hT]
    cases hbusy : s.busy with
    | true =>
      rw [onTickBody_busy hbusy]
      have hle := hInv.th_len
      rcases hth : s.thandlers with _ | ⟨h, rest⟩
      · simpa [processTH] using hInv
      · have hrest : rest = [] := by
          rw [hth] at hle; simpa using Nat.le_of_succ_le_succ hle
        subst hrest
        simp only [processTH, List.foldl_cons, List.foldl_nil]
        have hfind : s.thandlers.find? (fun x => x.taskId == h.taskId) = some h := by
          rw [hth]; simp [List.find?]
        unfold fireTH
        rw [hfind]
        dsimp only
        have hlast : (s.dispatches.map DTask.id).getLast? = some h.taskId :=
          hInv.th_last h (by rw [hth]; exact List.mem_cons_self _ _)
        split_ifs with hfire
        · -- the timeout fires: fail the task, clear busy, drop the tick listener
          have hDnodup : (s.dispatches.map DTask.id).Nodup :=
            chain_lt_nodup hInv.chain.left_of_append
          have hsplit : (s.dispatches.map DTask.id).dropLast ++ [h.taskId] =
              s.dispatches.map DTask.id :=
            List.dropLast_append_getLast? _ (by rw [hlast]; rfl)
          have hnotin : h.taskId ∉ (s.dispatches.map DTask.id).dropLast := by
            intro hin
            rw [← hsplit] at hDnodup
            exact (List.disjoint_of_nodup_append hDnodup) hin (by simp)
          have hfir : firsts s.trace = (s.dispatches.map DTask.id).dropLast := by
            have h0 := hInv.tr; rw [hbusy] at h0; simpa using h0
          have htr' : firsts (s.trace ++ [(h.taskId, .err requestTimeoutError)]) =
              s.dispatches.map DTask.id := by
            rw [firsts_append_const h.taskId [(h.taskId, .err requestTimeoutError)] (by simp) (by simp) s.trace]
            have hxmem : h.taskId ∉ s.trace.map Prod.fst := fun hin =>
              hnotin (by rw [← hfir]; exact mem_firsts.mpr hin)
            rw [if_neg hxmem, hfir, hsplit]
          refine ⟨hInv.chain, hInv.lt_next, ?_, hInv.ph, ?_, ?_, ?_, ?_⟩
          · simpa using htr'
          · intro hcontra; simp at hcontra
          · intro _; rw [hth]; simp
          · intro h' hh'; rw [hth] at hh'; simp at hh'
          · rw [hth]; simp
        · -- budget not yet reached: only the closure counter advances
          refine ⟨hInv.chain, hInv.lt_next, hInv.tr, hInv.ph, hInv.busy_ph, ?_, ?_, ?_⟩
          · intro hf; rw [hbusy] at hf; simp at hf
          · intro h' hh'
            obtain ⟨x, hx, rfl⟩ := List.mem_map.mp hh'
            have htid : (if x.taskId == h.taskId
                then { x with counter := x.counter + timerMs } else x).taskId = x.taskId := by
              split <;> rfl
            rw [htid]
            exact hInv.th_last x hx
          · simpa using hInv.th_len
    | false =>
      have hth := hInv.th_nil hbusy
      rw [hth]
      simp only [processTH, List.foldl_nil]
      rcases hq : s.queue with _ | ⟨t, rest⟩
      · rw [onTickBody_idle_nil hbusy hq]
        have hchq : List.Chain' (· < ·) (s.dispatches.map DTask.id) := by
          have := hInv.chain; rw [hq] at this; simpa using this
        have hch : List.Chain' (· < ·)
            (s.dispatches.map DTask.id ++ [s.nextId]) := by
          refine List.Chain'.append hchq (List.chain'_singleton _) ?_
          intro x hx y hy
          simp only [List.head?_cons, Option.mem_def, Option.some.injEq] at hy
          subst hy
          exact hInv.lt_next x (List.mem_append.mpr (Or.inl (mem_of_mem_getLast'' hx)))
        refine ⟨?_, ?_, hInv.tr, hInv.ph, hInv.busy_ph, ?_, ?_, ?_⟩
        · simpa using hch
        · intro i hi
          simp only [List.map_cons, List.map_nil] at hi
          rcases List.mem_append.mp hi with hmem | hmem
          · exact Nat.lt_succ_of_lt (hInv.lt_next i (List.mem_append.mpr (Or.inl hmem)))
          · simp at hmem; subst hmem; exact Nat.lt_succ_self _
        · intro _; exact hth
        · intro h' hh'; rw [hth] at hh'; simp at hh'
        · rw [hth]; simp
      · rw [onTickBody_idle_cons hbusy hq]
        have hch0 := hInv.chain
        rw [hq] at hch0
        have hfir : firsts s.trace = s.dispatches.map DTask.id := by
          have h0 := hInv.tr; rw [hbusy] at h0; simpa using h0
        refine ⟨?_, ?_, ?_, ?_, ?_, ?_, ?_, ?_⟩
        · simpa [List.append_assoc] using hch0
        · intro i hi
          apply hInv.lt_next
          rw [hq]
          simp only [List.map_append, List.map_cons, List.map_nil, ← List.append_assoc] at hi ⊢
          simpa using hi
        · simpa [List.dropLast_concat] using hfir
        · intro h' hh'
          rcases List.mem_append.mp hh' with hmem | hmem
          · simp only [List.map_append]
            exact List.mem_append.mpr (Or.inl (hInv.ph h' hmem))
          · simp at hmem; subst hmem; simp
        · intro _
          exact ⟨t.id, by simp, by simp⟩
        · intro hf; simp at hf
        · intro h' hh'
          rw [hth] at hh'
          by_cases hto : t.timeout ≠ 0
          · rw [if_pos hto] at hh'
            simp only [List.nil_append, List.mem_singleton] at hh'
            subst hh'
            simp
          · rw [if_neg hto] at hh'
            simp at hh'
        · rw [hth]
          split_ifs <;> simp

theorem inv_frame (s : DeviceState) (f : List Nat) (hInv : EngineInv s) :
    EngineInv (step s (.frame f)) := by
  cases hO : s.serialOpen with
  | false => simpa [step, hO] using hInv
  | true =>
    have hstep : step s (.frame f) =
        List.foldl (fun acc h => runHandler f acc h.taskId) s s.phandlers := by
      simp [step, hO]
    rw [hstep]
    by_cases hne : s.phandlers = []
    · rw [hne]; exact hInv
    · obtain ⟨hqe, hne', hde, hse, hte⟩ := foldRH_fields f s.phandlers s
      have hDnodup : (s.dispatches.map DTask.id).Nodup :=
        chain_lt_nodup hInv.chain.left_of_append
      have hfirsts : firsts (List.foldl (fun acc h => runHandler f acc h.taskId)
          s s.phandlers).trace = s.dispatches.map DTask.id := by
        apply foldRH_firsts f (s.dispatches.map DTask.id) hDnodup s.phandlers s rfl hInv.ph
        cases hbusy : s.busy with
        | false =>
          left; have h0 := hInv.tr; rw [hbusy] at h0; simpa using h0
        | true =>
          right
          obtain ⟨i, hlast, hmem⟩ := hInv.busy_ph hbusy
          have h0 := hInv.tr
          rw [hbusy] at h0
          exact ⟨by simpa using h0, i, hlast, hmem⟩
      have hbusy' : (List.foldl (fun acc h => runHandler f acc h.taskId)
          s s.phandlers).busy = false := foldRH_busy f s.phandlers s hne
      have hthnil : (List.foldl (fun acc h => runHandler f acc h.taskId)
          s s.phandlers).thandlers = [] := by
        rw [List.eq_nil_iff_forall_not_mem]
        intro h' hmem'
        obtain ⟨hm1, hm2⟩ := foldRH_th_mem f s.phandlers s h' hmem'
        cases hbusy : s.busy with
        | false => rw [hInv.th_nil hbusy] at hm1; simp at hm1
        | true =>
          have hl := hInv.th_last h' hm1
          obtain ⟨i, hlast, hmemi⟩ := hInv.busy_ph hbusy
          rw [hl] at hlast
          have hit : i = h'.taskId := by simpa using hlast.symm
          subst hit
          exact hm2 hmemi
      refine ⟨?_, ?_, ?_, ?_, ?_, ?_, ?_, ?_⟩
      · rw [hde, hqe]; exact hInv.chain
      · rw [hde, hqe, hne']; exact hInv.lt_next
      · simp only [hbusy', hde, Bool.false_eq_true, if_false]
        exact hfirsts
      · intro h' hm'
        rw [hde]
        exact hInv.ph h' (foldRH_ph_mem f s.phandlers s h' hm')
      · intro hcontra; rw [hbusy'] at hcontra; simp at hcontra
      · intro _; exact hthnil
      · intro h' hm'; rw [hthnil] at hm'; simp at hm'
      · rw [hthnil]; simp

theorem inv_step (s : DeviceState) (ev : Ev) (hInv : EngineInv s) : EngineInv (step s ev) := by
  cases ev with
  | exec d t => exact inv_exec s d t hInv
  | tick => exact inv_tick s hInv
  | frame f => exact inv_frame s f hInv
  | disconnect => exact inv_disconnect s hInv

theorem inv_foldl (evs : List Ev) : ∀ s, EngineInv s → EngineInv (evs.foldl step s) := by
  induction evs with
  | nil => intro s h; exact h
  | cons e evs ih => intro s h; exact ih (step s e) (inv_step s e h)

/-- Every state the engine can reach from `initState` satisfies the
invariant. -/
theorem inv_run (evs : List Ev) : EngineInv (run evs) := inv_foldl evs initState inv_init

/-! ### Concrete scenarios -/

/-- A sample caller request frame (framed `0x30` payload) used in the
concrete runs below. -/
def demoRequest : List Nat := mkFrame [0x30]

/-- An inbound frame whose two trailing checksum bytes (`0x30 0x30`) do
not match the checksum of its first five bytes. -/
def badFrame : List Nat := [0x02, 0x03, 0x07, 0x41, 0x42, 0x30, 0x30]

/-- A well-formed inbound response frame carrying the one-byte payload
`0x14`. -/
def goodFrame : List Nat := mkFrame [0x14]

/-- Appending the recomputed checksum always verifies: the positive half
of the round-trip property. -/
theorem verify_roundtrip (b : List Nat) : verifyFrame (b ++ getCRC16 b) = true := by
  unfold verifyFrame
  have hlen : (b ++ getCRC16 b).length = b.length + 2 := by simp [getCRC16]
  have hdrop : (b ++ getCRC16 b).drop b.length = getCRC16 b := List.drop_left b _
  have htake : (b ++ getCRC16 b).take b.length = b := List.take_left b _
  simp only [hlen, Nat.add_sub_cancel, hdrop, htake, beq_self_eq_true]

/-! ### The claims -/

/-- C1: the claim says the completion sink is invoked at most once per
Task and that a frame failing checksum verification must not additionally
complete the Task successfully.  The code violates this: the CRC-failure
branch of the frame handler has no early return, so after
`task.done(new Exception(11, ...))` execution falls through and also runs
`task.done(null, data)`.  This theorem evaluates the engine at the failing
input: task 0 receives two sink invocations, a checksum-mismatch failure
followed by a success completion. -/
theorem c1_sink_invoked_twice :
    (run [Ev.exec demoRequest 1000, Ev.tick, Ev.frame badFrame]).trace =
      [(0, .err responseHashError), (0, .ok [0x41, 0x42])] := by decide

/-- C2: the claim says a verified single-byte ACK (`0x00`) payload is
handshake-only: no further action, `busy` stays set, the Task is not
completed, and the true response is still awaited.  The code violates
this: the empty ACK branch falls through to the unconditional epilogue,
which clears `busy` and completes the Task with the ACK payload; moreover
the `once` frame listener has already been unbound, so nothing awaits the
true response. -/
theorem c2_ack_completes_task :
    (run [Ev.exec demoRequest 1000, Ev.tick, Ev.frame ackFrame]).busy = false ∧
    (run [Ev.exec demoRequest 1000, Ev.tick, Ev.frame ackFrame]).trace = [(0, .ok [0x00])] ∧
    (run [Ev.exec demoRequest 1000, Ev.tick, Ev.frame ackFrame]).phandlers = [] := by decide

/-- C3: the claim says on timeout both the timeout listener and the
frame-response listener are unregistered, so a late frame cannot invoke
the sink.  The code only unregisters the tick listener: after the timeout
fires for task 0 (at the first tick, since the accumulated 100 ms reaches
the 100 ms budget) the parser listener is still bound, and a late frame
invokes the sink a second time. -/
theorem c3_late_frame_invokes_sink_after_timeout :
    (run [Ev.exec demoRequest 100, Ev.tick, Ev.tick]).phandlers = [⟨0⟩] ∧
    (run [Ev.exec demoRequest 100, Ev.tick, Ev.tick, Ev.frame goodFrame]).trace =
      [(0, .err requestTimeoutError), (0, .ok [0x14])] := by decide

/-- C4: the claim says checksum verification compares byte-for-byte and
rejects every single-bit corruption.  The code compares
`check.toString() !== getCRC16(slice).toString()` with lossy UTF-8
decoding: the checksum of `[0x02, 0x03, 0x06, 0x88]` is `[0x82, 0x8A]`,
and flipping the low bit of the first checksum byte (`0x82` to `0x83`,
one bit, as witnessed by the xor) still verifies, because both stray
continuation bytes decode to the same replacement character. -/
theorem c4_checksum_false_accept :
    getCRC16 [0x02, 0x03, 0x06, 0x88] = [0x82, 0x8A] ∧
    Nat.xor 0x82 0x83 = 1 ∧
    verifyFrame ([0x02, 0x03, 0x06, 0x88] ++ [0x83, 0x8A]) = true := by decide

/-- C5: while `busy` is set, a tick dequeues nothing (the dispatch body is
the identity), every reachable trace lists first completions in strictly
increasing task-id order - i.e. Tasks complete in the FIFO order in which
they were enqueued - and at most one dispatched Task is ever awaiting its
first completion, so at most one outbound frame is unacknowledged. -/
theorem c5_single_flight_fifo (evs : List Ev) :
    ((run evs).busy = true → onTickBody (run evs) = run evs) ∧
    List.Chain' (· < ·) (firsts (run evs).trace) ∧
    (run evs).dispatches.length ≤ (firsts (run evs).trace).length + 1 := by
  have hInv := inv_run evs
  have hD : List.Chain' (· < ·) ((run evs).dispatches.map DTask.id) :=
    hInv.chain.left_of_append
  refine ⟨fun hb => onTickBody_busy hb, ?_, ?_⟩
  · rw [hInv.tr]
    split_ifs with hb
    · exact hD.sublist (List.dropLast_sublist _)
    · exact hD
  · have hlen : (run evs).dispatches.length =
        ((run evs).dispatches.map DTask.id).length := by simp
    rw [hInv.tr]
    split_ifs with hb
    · rw [hlen, List.length_dropLast]
      omega
    · rw [hlen]
      omega

/-- Witness for C5 at a concrete busy state: one executed task was
dispatched on the first tick, the engine is busy, and the tick body is
the identity there. -/
theorem c5_single_flight_fifo_witness :
    onTickBody (run [Ev.exec demoRequest 1000, Ev.tick]) =
      run [Ev.exec demoRequest 1000, Ev.tick] ∧
    List.Chain' (· < ·) (firsts (run [Ev.exec demoRequest 1000, Ev.tick]).trace) :=
  ⟨(c5_single_flight_fifo [Ev.exec demoRequest 1000, Ev.tick]).1 (by decide),
   (c5_single_flight_fifo [Ev.exec demoRequest 1000, Ev.tick]).2.1⟩

theorem step_tick_idle {s : DeviceState} (hT : s.timerOn = true) (hth : s.thandlers = []) :
    step s .tick = onTickBody s := by
  rw [step_tick_eq hT, hth]; rfl

/-- C6: when the engine is idle with an empty queue while the operating
timer runs, the tick after a full empty interval dispatches exactly one
Poll task, synthesized on the empty tick with the fixed 1000 ms timeout;
and since at most one dispatched task is ever awaiting completion, no two
Poll tasks are in flight simultaneously. -/
theorem c6_idle_poll (evs : List Ev) :
    ((run evs).busy = false → (run evs).queue = [] → (run evs).timerOn = true →
      (step (run evs) Ev.tick).queue = [⟨(run evs).nextId, pollFrame, 1000⟩] ∧
      (step (run evs) Ev.tick).dispatches = (run evs).dispatches ∧
      (step (step (run evs) Ev.tick) Ev.tick).dispatches =
        (run evs).dispatches ++ [⟨(run evs).nextId, pollFrame, 1000⟩] ∧
      (step (step (run evs) Ev.tick) Ev.tick).busy = true ∧
      (step (step (run evs) Ev.tick) Ev.tick).writes = (run evs).writes ++ [pollFrame]) ∧
    (run evs).dispatches.length ≤ (firsts (run evs).trace).length + 1 := by
  have hInv := inv_run evs
  constructor
  · intro hb hq hT
    have hth : (run evs).thandlers = [] := hInv.th_nil hb
    have h1 : step (run evs) Ev.tick = onTickBody (run evs) := step_tick_idle hT hth
    have h2 : onTickBody (run evs) =
        { run evs with
          queue := [⟨(run evs).nextId, pollFrame, 1000⟩],
          nextId := (run evs).nextId + 1 } := onTickBody_idle_nil hb hq
    rw [h1, h2]
    have h3 : step
        ({ run evs with
           queue := [⟨(run evs).nextId, pollFrame, 1000⟩],
           nextId := (run evs).nextId + 1 } : DeviceState) Ev.tick =
        onTickBody
        { run evs with
          queue := [⟨(run evs).nextId, pollFrame, 1000⟩],
          nextId := (run evs).nextId + 1 } := step_tick_idle hT hth
    rw [h3]
    have h4 := onTickBody_idle_cons (s :=
        { run evs with
          queue := [⟨(run evs).nextId, pollFrame, 1000⟩],
          nextId := (run evs).nextId + 1 }) hb rfl
    rw [h4]
    exact ⟨rfl, rfl, rfl, rfl, rfl⟩
  · have hlen : (run evs).dispatches.length =
        ((run evs).dispatches.map DTask.id).length := by simp
    rw [hInv.tr]
    split_ifs with hb
    · rw [hlen, List.length_dropLast]
      omega
    · rw [hlen]
      omega

/-- Witness for C6 at the freshly connected engine: the first tick
enqueues the Poll task with id 0 and the second tick dispatches it. -/
theorem c6_idle_poll_witness :
    (step (run []) Ev.tick).queue = [⟨(run []).nextId, pollFrame, 1000⟩] ∧
    (step (step (run []) Ev.tick) Ev.tick).busy = true :=
  ⟨((c6_idle_poll []).1 rfl rfl rfl).1, ((c6_idle_poll []).1 rfl rfl rfl).2.2.2.1⟩

/-- C7 counterexample: the claim says the checksum-mismatch failure and
the peer-NAK failure are semantically distinct errors; in the code both
paths construct their exception with the same error code 11, so the two
failure kinds collide at the error-code level. -/
theorem c7_same_error_code :
    (run [Ev.exec demoRequest 1000, Ev.tick, Ev.frame badFrame]).trace.head? =
      some (0, .err responseHashError) ∧
    (run [Ev.exec demoRequest 1000, Ev.tick, Ev.frame nakFrame]).trace.head? =
      some (0, .err requestHashError) ∧
    responseHashError.code = requestHashError.code := by decide

set_option maxRecDepth 4096 in
/-- C7 amended: the two failures share error code 11 and are
distinguishable only by their message strings; the checksum-mismatch path
additionally writes a NAK frame to the peer while the peer-NAK path does
not. -/
theorem c7_distinct_only_by_message :
    responseHashError.code = 11 ∧ requestHashError.code = 11 ∧
    (responseHashError.message == requestHashError.message) = false ∧
    (run [Ev.exec demoRequest 1000, Ev.tick, Ev.frame badFrame]).writes =
      [demoRequest, nakFrame, ackFrame] ∧
    (run [Ev.exec demoRequest 1000, Ev.tick, Ev.frame nakFrame]).writes = [demoRequest] := by
  decide

/-- C8 counterexample: the claim says every in-flight or queued Task is
failed with a connection-closed error on disconnect; in the code a queued
task survives disconnect untouched and its sink is never invoked (the
trace stays empty - no connection-closed failure exists). -/
theorem c8_queued_task_not_failed :
    (run [Ev.exec demoRequest 1000, Ev.disconnect]).queue = [⟨0, demoRequest, 1000⟩] ∧
    (run [Ev.exec demoRequest 1000, Ev.disconnect]).trace = [] := by decide

/-- C8 amended: disconnect closes the transport and stops the tick driver
(no further tick has any effect), but in-flight or queued Tasks are not
failed - queue and trace are left untouched. -/
theorem c8_disconnect_stops_timer (evs : List Ev) :
    (step (run evs) Ev.disconnect).serialOpen = false ∧
    (step (run evs) Ev.disconnect).timerOn = false ∧
    (step (run evs) Ev.disconnect).trace = (run evs).trace ∧
    (step (run evs) Ev.disconnect).queue = (run evs).queue ∧
    step (step (run evs) Ev.disconnect) Ev.tick = step (run evs) Ev.disconnect := by
  refine ⟨rfl, rfl, rfl, rfl, ?_⟩
  simp [step]

/-- C9 counterexample: the claim says a code absent from the status table
yields a defined UnrecognizedStatus error; in the code `'99'` is absent
from the table and `Device.onStatus` is an empty stub, so the status is
silently ignored and no error of any kind is produced. -/
theorem c9_unmapped_code_silently_ignored :
    lookupStatus "99" = none ∧ onStatus [0x99] = none := by decide

/-- C9 amended: the status table does map `'19'` to `UNIT_DISABLED` and
`'1c60'` to `REJECTING_DUE_TO_INSERTION`, but the engine's status handler
is an unimplemented stub, so every status - mapped or not - is silently
ignored and no UnrecognizedStatus error exists. -/
theorem c9_status_table :
    lookupStatus "19" = some DeviceStatus.UNIT_DISABLED ∧
    lookupStatus "1c60" = some DeviceStatus.REJECTING_DUE_TO_INSERTION ∧
    ∀ b : List Nat, onStatus b = none :=
  ⟨by decide, by decide, fun _ => rfl⟩

/-- C10: the synthesized Poll task's completion sink re-throws its error
(modelled as `Except.error`, short-circuiting before the classifier) and
forwards only a successful payload to `onStatus`. -/
theorem c10_poll_sink (e : CCError) (d : List Nat) :
    pollSink (some e) d = Except.error e ∧ pollSink none d = Except.ok (onStatus d) :=
  ⟨rfl, rfl⟩
